import Mathlib

namespace RTTD

/-!
Shallow embedding of the RealTimeTranslateDisplay recognition pipeline:
the recognition worker loop and buffered log writer of
`src/recognition/speech_recognition.py`, the keyword extraction and
search of `src/utils/keyword_search.py`, and the dashboard bridge of
`src/web_ui_bridge.py`.  Python strings are Lean `String`s, wall-clock
times are rationals (seconds), and each external collaborator (the
whisper backend, the DuckDuckGo provider, the HTTP endpoint, the log
file) is an explicit oracle argument describing how the call behaves.
-/

/-! ## Buffered log writer (`SpeechRecognition._log_buffer`) -/

/-- State of the buffered log writer: the in-memory buffer
(`self._log_buffer`) and the lines durably appended to the log file so
far. -/
structure LogState where
  buffer : List String
  fileLines : List String
deriving Repr, DecidableEq

/-- Outcome of one attempt to open and write the log file: success, or
an IOError raised after `k` of the buffered lines were durably
written. -/
inductive WriteOutcome where
  | ok : WriteOutcome
  | ioError (k : Nat) : WriteOutcome
deriving Repr, DecidableEq

/-- Embedding of `SpeechRecognition._flush_log_buffer`.  Returns the new
state and whether a write error was logged.  An empty buffer returns
immediately.  On success every buffered line is appended to the file and
the buffer is cleared; the `clear()` sits inside the `try` block after
the write, so on an IOError the buffer is left untouched and the error
is logged. -/
def flushLogBuffer (st : LogState) (w : WriteOutcome) : LogState × Bool :=
  if st.buffer = [] then (st, false)
  else
    match w with
    | WriteOutcome.ok => (⟨[], st.fileLines ++ st.buffer⟩, false)
    | WriteOutcome.ioError k => (⟨st.buffer, st.fileLines ++ st.buffer.take k⟩, true)

/-- Embedding of `SpeechRecognition._add_to_log_buffer`: append the
text, then flush when the buffer has reached
`self._log_buffer_size = 10` items. -/
def addToLogBuffer (st : LogState) (text : String) (w : WriteOutcome) : LogState × Bool :=
  let st1 : LogState := ⟨st.buffer ++ [text], st.fileLines⟩
  if 10 ≤ st1.buffer.length then flushLogBuffer st1 w else (st1, false)

/-- Embedding of `SpeechRecognition.close`: one final flush of the
remaining buffer. -/
def closeLog (st : LogState) (w : WriteOutcome) : LogState × Bool :=
  flushLogBuffer st w

/-- Recording a whole sequence of accepted texts through
`_add_to_log_buffer`, starting from the empty writer state, with every
flush succeeding. -/
def recordAll (texts : List String) : LogState :=
  texts.foldl (fun s t => (addToLogBuffer s t WriteOutcome.ok).1) ⟨[], []⟩

/-! ## Keyword extraction (`KeywordSearch.extract_keywords_simple`) -/

/-- Character class of the regex `[一-龯]` (CJK ideographs as
the source delimits them). -/
def isKanjiChar (c : Char) : Bool :=
  decide (0x4e00 ≤ c.toNat ∧ c.toNat ≤ 0x9faf)

/-- Character class of the regex `[゠-ヿ]` (katakana). -/
def isKatakanaChar (c : Char) : Bool :=
  decide (0x30a0 ≤ c.toNat ∧ c.toNat ≤ 0x30ff)

/-- Character class of the regex `[a-zA-Z0-9]`. -/
def isAlnumAscii (c : Char) : Bool :=
  decide ((0x41 ≤ c.toNat ∧ c.toNat ≤ 0x5a) ∨ (0x61 ≤ c.toNat ∧ c.toNat ≤ 0x7a)
    ∨ (0x30 ≤ c.toNat ∧ c.toNat ≤ 0x39))

/-- Scanner accumulating the current run in reverse; mirrors a single
left-to-right regex scan for a character-class repetition. -/
def charRunsAux (p : Char → Bool) : List Char → List Char → List (List Char)
  | [], cur => if cur = [] then [] else [cur.reverse]
  | c :: cs, cur =>
    if p c then charRunsAux p cs (c :: cur)
    else if cur = [] then charRunsAux p cs []
    else cur.reverse :: charRunsAux p cs []

/-- Maximal runs of consecutive characters satisfying `p`, left to
right. -/
def charRuns (p : Char → Bool) (l : List Char) : List (List Char) :=
  charRunsAux p l []

/-- Embedding of `re.findall` for a pattern `[class]{m,}`: the maximal
runs of the class, kept when at least `m` characters long, as
strings. -/
def reFindRuns (p : Char → Bool) (minLen : Nat) (text : String) : List String :=
  ((charRuns p text.toList).filter (fun r => decide (minLen ≤ r.length))).map String.mk

/-- The `one_char_stop` set of the source (single-ideograph
pronoun/particle/numeral stoplist), as the characters of its literal. -/
def oneCharStop : List Char :=
  "私僕俺君彼彼女誰何これそれあれこれ其其此此孰孰何何一二三四五六七八九十百千万大小上下左右前後中東西南北".toList

/-- The `stop_words` generic-term stoplist of the source. -/
def stopWords : List String :=
  ["今日", "昨日", "明日", "自分", "人間", "最初", "最後", "今回", "今回", "本当", "実際"]

/-- The test `len(k) == 1 and k in one_char_stop` dropping a
single-ideograph match found in the stoplist. -/
def isStoppedSingleKanji (k : String) : Bool :=
  match k.toList with
  | [c] => oneCharStop.contains c
  | _ => false

/-- Character class of the substitution regex `[!?.!?.。、，,]` (the
source repeats the ASCII `!?.`). -/
def sentencePunct : List Char := ['!', '?', '.', '。', '、', '，', ',']

/-- Embedding of `re.sub(r'[!?.!?.。、，,]', ' ', text)`. -/
def stripPunct (text : String) : String :=
  String.mk (text.toList.map (fun c => if sentencePunct.contains c then ' ' else c))

/-- Whitespace as Python `str.split()` sees it (space, tab, newlines,
vertical tab, form feed, carriage return). -/
def isPySpace (c : Char) : Bool :=
  decide (c = ' ' ∨ c = '\t' ∨ c = '\n' ∨ c = '\r' ∨ c.toNat = 11 ∨ c.toNat = 12)

/-- The test `str(language).lower().startswith('ja')`: the locale tag
lowercased begins with the two characters of the Japanese tag. -/
def isJaLocale (language : String) : Bool :=
  match language.toList.map Char.toLower with
  | 'j' :: 'a' :: _ => true
  | _ => false

/-- Embedding of the deduplication loop of the source: keep the first
occurrence of each keyword, preserving order. -/
def dedupFirst (l : List String) : List String :=
  l.foldl (fun acc kw => if kw ∈ acc then acc else acc ++ [kw]) []

/-- Embedding of `KeywordSearch.extract_keywords_simple`.  For a
Japanese-tagged locale it collects kanji runs (length at least 1, with
stoplisted single ideographs dropped), katakana runs (length at least
2) and alphanumeric runs (length at least 3), then drops generic stop
words; for any other locale it strips sentence punctuation, splits on
whitespace and keeps tokens of length at least 3.  Both branches then
deduplicate preserving first occurrence and keep at most 4 keywords. -/
def extract_keywords_simple (text : String) (language : String) : List String :=
  if text = "" then []
  else
    let keywords :=
      if isJaLocale language then
        let kanji := reFindRuns isKanjiChar 1 text
        let katakana := reFindRuns isKatakanaChar 2 text
        let english := reFindRuns isAlnumAscii 3 text
        let kanji_filtered := kanji.filter (fun k => !(isStoppedSingleKanji k))
        ((kanji_filtered ++ katakana ++ english).filter (fun kw => !(stopWords.contains kw)))
      else
        ((charRuns (fun c => !(isPySpace c)) (stripPunct text).toList).filter
          (fun w => decide (3 ≤ w.length))).map String.mk
    (dedupFirst keywords).take 4

/-- The keyword stoplist drop exactly as the specification words it:
single-ideograph matches found in the pronoun/particle stoplist and
whole matches found in the generic-term stoplist are dropped. -/
def specDropStop (kw : String) : Bool :=
  !(isStoppedSingleKanji kw) && !(stopWords.contains kw)

/-- The keyword extraction pipeline as the specification words it: for
a Japanese-tagged locale, the runs of at least 1 CJK ideograph, at
least 2 katakana characters and at least 3 alphanumeric characters
found in the text, concatenated in extraction order with the stoplist
drops applied; for any other locale, the whitespace-separated tokens of
length at least 3 after stripping sentence punctuation; in both cases
deduplicated preserving first-occurrence order and truncated to at most
4 keywords. -/
def extractKeywordsSpec (text : String) (language : String) : List String :=
  let kws :=
    if isJaLocale language then
      (reFindRuns isKanjiChar 1 text ++ reFindRuns isKatakanaChar 2 text
        ++ reFindRuns isAlnumAscii 3 text).filter specDropStop
    else
      ((charRuns (fun c => !(isPySpace c)) (stripPunct text).toList).map String.mk).filter
        (fun w => decide (3 ≤ w.length))
  (dedupFirst kws).take 4

/-! ## Keyword search (`KeywordSearch.search`) and the keyword trigger -/

/-- One result dictionary returned by the provider text search
(`title`, `href`, `body` keys read by the source). -/
structure RawArticle where
  title : String
  href : String
  body : String
deriving Repr, DecidableEq

/-- One result dictionary returned by the provider image search
(`title`, `image`, `thumbnail`, `url` keys read by the source). -/
structure RawImage where
  title : String
  image : String
  thumbnail : String
  url : String
deriving Repr, DecidableEq

/-- Article entry as the source builds it from a raw text result. -/
structure Article where
  title : String
  link : String
  snippet : String
deriving Repr, DecidableEq

/-- Image entry as the source builds it from a raw image result. -/
structure Image where
  title : String
  image : String
  thumbnail : String
  url : String
deriving Repr, DecidableEq

/-- The dictionary the source appends for each text result. -/
def mkArticle (r : RawArticle) : Article :=
  ⟨r.title, r.href, r.body⟩

/-- The dictionary the source appends for each image result. -/
def mkImage (r : RawImage) : Image :=
  ⟨r.title, r.image, r.thumbnail, r.url⟩

/-- Record of one invocation of the external provider: the query string
and the `max_results` caps passed to the text and image searches. -/
structure ProviderCall where
  query : String
  maxArticles : Nat
  maxImages : Nat
deriving Repr, DecidableEq

/-- Oracle describing how one DDGS session behaves: both listings
succeed, the text listing raises, or the image listing raises after the
text results were already collected. -/
inductive DdgsRun where
  | ok (texts : List RawArticle) (imgs : List RawImage)
  | failInText (msg : String)
  | failInImages (texts : List RawArticle) (msg : String)
deriving Repr, DecidableEq

/-- Observable outcome of `KeywordSearch.search`: the two result lists
it returns, whether and how the provider was contacted, and whether a
failure was logged. -/
structure SearchResult where
  articles : List Article
  images : List Image
  providerCall : Option ProviderCall
  errorLogged : Bool
deriving Repr, DecidableEq

/-- Embedding of a Python `try` block: an error is caught and handed to
the `except` handler, after which execution resumes normally. -/
def pyTryE {ε α : Type} (body : Except ε α) (handler : ε → α) : Except ε α :=
  match body with
  | Except.ok a => Except.ok a
  | Except.error e => Except.ok (handler e)

/-- Body of the `try` block of `KeywordSearch.search`: materialise the
text results, then the image results.  An exception carries the
articles accumulated before it was raised (the `articles` list is
mutated outside the `try`, so it survives the exception; a failure in
the text listing leaves it empty). -/
def searchTryBody (run : DdgsRun) : Except (String × List Article) (List Article × List Image) :=
  match run with
  | DdgsRun.ok ts is => Except.ok (ts.map mkArticle, is.map mkImage)
  | DdgsRun.failInText m => Except.error (m, [])
  | DdgsRun.failInImages ts m => Except.error (m, ts.map mkArticle)

/-- Embedding of `KeywordSearch.search` with its exception behaviour
made explicit: empty keywords return empty results without contacting
the provider; otherwise the provider is called once with the joined
query and `max_results=3` for both listings, and any provider failure
is caught, logged, and the lists accumulated so far are returned. -/
def KeywordSearch_searchE (keywords : List String) (run : DdgsRun) :
    Except (String × List Article) SearchResult :=
  if keywords = [] then Except.ok ⟨[], [], none, false⟩
  else
    let call : ProviderCall := ⟨String.intercalate " " keywords, 3, 3⟩
    pyTryE
      ((searchTryBody run).map (fun p => ⟨p.1, p.2, some call, false⟩))
      (fun e => ⟨e.2, [], some call, true⟩)

/-- The value `KeywordSearch.search` actually returns; the error arm is
unreachable because the `try` block catches every provider failure. -/
def KeywordSearch_search (keywords : List String) (run : DdgsRun) : SearchResult :=
  match KeywordSearch_searchE keywords run with
  | Except.ok r => r
  | Except.error e => ⟨e.2, [], none, true⟩

/-- Observable outcome of the `trigger_keyword_search` background task
of `recognition_thread`: whether the provider was contacted, the
`send_keywords` publication it made (keywords, articles, images and the
CorrelationID it was spawned with), and whether its `except` handler
logged a background error. -/
structure TriggerResult where
  searchCall : Option ProviderCall
  sent : Option (List String × List Article × List Image × Nat)
  backgroundErrorLogged : Bool
deriving Repr, DecidableEq

/-- Embedding of `trigger_keyword_search` with its exception behaviour
made explicit: extract keywords; when non-empty, search and publish a
keywords envelope with the returned lists; the surrounding `try` logs
any escaped exception. -/
def trigger_keyword_searchE (txt : String) (pid : Nat) (lang : String) (run : DdgsRun) :
    Except String TriggerResult :=
  pyTryE
    (let keywords := extract_keywords_simple txt lang
     if keywords = [] then Except.ok ⟨none, none, false⟩
     else
       match KeywordSearch_searchE keywords run with
       | Except.ok r => Except.ok ⟨r.providerCall, some (keywords, r.articles, r.images, pid), false⟩
       | Except.error e => Except.error e.1)
    (fun _e => ⟨none, none, true⟩)

/-- The outcome of the background task; the error arm is unreachable
because the task-level `try` catches everything. -/
def trigger_keyword_search (txt : String) (pid : Nat) (lang : String) (run : DdgsRun) :
    TriggerResult :=
  match trigger_keyword_searchE txt pid lang run with
  | Except.ok r => r
  | Except.error _ => ⟨none, none, true⟩

/-! ## Dashboard bridge (`WebUIBridge`) -/

/-- The bridge configuration the source constructor stores. -/
structure WebUIBridge where
  server_url : String
  enabled : Bool
deriving Repr, DecidableEq

/-- The JSON envelope dictionaries the five send methods build, one
constructor per `type` tag, fields in source order. -/
inductive UiMessage where
  | recognized (text : String) (language : String) (pair_id : String) (timestamp : String)
  | translated (text : String) (source_text : Option String) (pair_id : String)
      (timestamp : String)
  | keywordsMsg (keywords : List String) (articles : List Article) (images : List Image)
      (pair_id : String) (timestamp : String)
  | statusMsg (status : String) (message : String) (timestamp : String)
  | errorMsg (message : String) (timestamp : String)
deriving Repr, DecidableEq

/-- Embedding of `WebUIBridge._broadcast`: when disabled, a no-op;
otherwise the message is submitted to the worker pool for an HTTP POST.
The returned list is the work submitted to the pool. -/
def WebUIBridge_broadcast (b : WebUIBridge) (m : UiMessage) : List UiMessage :=
  if b.enabled = false then [] else [m]

/-- Embedding of `WebUIBridge.send_recognized_text`.  `nowIso` stands
for `datetime.now().isoformat()` at call time. -/
def send_recognized_text (b : WebUIBridge) (text : String) (language : String)
    (pair_id : Option String) (nowIso : String) : List UiMessage :=
  if b.enabled = false then []
  else WebUIBridge_broadcast b (UiMessage.recognized text language (pair_id.getD nowIso) nowIso)

/-- Embedding of `WebUIBridge.send_translated_text`. -/
def send_translated_text (b : WebUIBridge) (text : String) (source_text : Option String)
    (pair_id : Option String) (nowIso : String) : List UiMessage :=
  if b.enabled = false then []
  else WebUIBridge_broadcast b (UiMessage.translated text source_text (pair_id.getD nowIso) nowIso)

/-- Embedding of `WebUIBridge.send_keywords`. -/
def send_keywords (b : WebUIBridge) (keywords : List String) (articles : List Article)
    (images : List Image) (pair_id : Option String) (nowIso : String) : List UiMessage :=
  if b.enabled = false then []
  else WebUIBridge_broadcast b
    (UiMessage.keywordsMsg keywords articles images (pair_id.getD nowIso) nowIso)

/-- Embedding of `WebUIBridge.send_status`. -/
def send_status (b : WebUIBridge) (status : String) (message : String)
    (nowIso : String) : List UiMessage :=
  if b.enabled = false then []
  else WebUIBridge_broadcast b (UiMessage.statusMsg status message nowIso)

/-- Embedding of `WebUIBridge.send_error`. -/
def send_error (b : WebUIBridge) (error_message : String) (nowIso : String) : List UiMessage :=
  if b.enabled = false then []
  else WebUIBridge_broadcast b (UiMessage.errorMsg error_message nowIso)

/-! ## HTTP post task of the bridge pool (`WebUIBridge._broadcast._do_post`) -/

/-- Oracle for one `requests.post` call: an HTTP status code came back,
or the call raised. -/
inductive PostOutcome where
  | ok (status : Nat)
  | exn (msg : String)
deriving Repr, DecidableEq

/-- The raw external HTTP call, raising on a network error. -/
def httpPost (po : PostOutcome) : Except String Nat :=
  match po with
  | PostOutcome.ok s => Except.ok s
  | PostOutcome.exn m => Except.error m

/-- Log entries the `_do_post` worker can produce. -/
inductive BridgeLog where
  | warning (msg : String)
  | err (msg : String)
deriving Repr, DecidableEq

/-- Embedding of the `_do_post` worker body: post with a 2 second
timeout, warn on a non-200 status, and catch any exception into an
error log entry. -/
def doPostE (po : PostOutcome) : Except String (List BridgeLog) :=
  pyTryE
    ((httpPost po).map (fun status =>
      if status ≠ 200 then [BridgeLog.warning "Web UI broadcast failed"] else []))
    (fun e => [BridgeLog.err ("Web UI broadcast error: " ++ e)])

/-! ## Recognition worker loop (`SpeechRecognition.recognition_thread`) -/

/-- Embedding of Python `str.strip()` on the backend text. -/
def pyStrip (s : String) : String :=
  String.mk (((s.toList.dropWhile isPySpace).reverse.dropWhile isPySpace).reverse)

/-- The per-loop mutable emission state (`last_text`,
`last_text_time`). -/
structure EmissionState where
  last_text : String
  last_text_time : ℚ
deriving Repr, DecidableEq

/-- Configuration of one recognition session: which sinks are wired
(`translation_queue`, `web_ui`, `keyword_search`), debug mode, and the
source-language hint. -/
structure RecogConfig where
  hasTranslationQueue : Bool
  hasWebUI : Bool
  hasKeywordSearch : Bool
  debug : Bool
  sourceLang : String
deriving Repr, DecidableEq

/-- State owned by the worker loop: emission state, log writer state,
and the supply of fresh CorrelationIDs (`uuid.uuid4()` is modelled as
drawing the next value from a counter, which captures its
never-reused uniqueness). -/
structure RecogState where
  emission : EmissionState
  log : LogState
  nextPairId : Nat
deriving Repr, DecidableEq

/-- Oracle for one backend transcription call: the raw text it
returned, or the exception it raised. -/
inductive BackendResult where
  | ok (raw : String)
  | exn (msg : String)
deriving Repr, DecidableEq

/-- Oracles consumed by one loop iteration: the backend outcome, the
value of `time.time()`, and how a log flush would behave if one
happens. -/
structure IterOracle where
  backend : BackendResult
  now : ℚ
  flushW : WriteOutcome
deriving Repr, DecidableEq

/-- The raw external backend call, raising on failure. -/
def backendCall (br : BackendResult) : Except String String :=
  match br with
  | BackendResult.ok raw => Except.ok raw
  | BackendResult.exn m => Except.error m

/-- Observable actions of one loop iteration, in program order. -/
inductive Action where
  | printText (text : String)
  | translationPut (text : String) (pid : Nat)
  | logBufferAdd (text : String)
  | logWriteError
  | sendRecognized (text : String) (language : String) (pid : Nat)
  | spawnKeywordTrigger (text : String) (pid : Nat) (language : String)
  | logInfo (msg : String)
  | logError (msg : String)
deriving Repr, DecidableEq

/-- The emission test of the source, line for line: the text is
non-empty, and it differs from the previous text or more than 1.5
seconds have passed since the previous emission. -/
def shouldEmit (text : String) (es : EmissionState) (now : ℚ) : Bool :=
  decide (¬ text = "")
    && (decide (¬ text = es.last_text) || decide ((3 : ℚ)/2 < now - es.last_text_time))

/-- The emission branch of the loop body: print when no dashboard is
wired, update the emission state, draw a fresh CorrelationID, publish
to the translation queue when wired, append to the log buffer (with a
possible flush), send the recognized envelope when a dashboard is
wired, and spawn the keyword trigger when a dashboard is wired but no
translation queue is and the keyword subsystem exists. -/
def emissionStep (cfg : RecogConfig) (st : RecogState) (now : ℚ) (text : String)
    (fw : WriteOutcome) : RecogState × List Action :=
  let pid := st.nextPairId
  let logRes := addToLogBuffer st.log text fw
  let acts :=
    (if cfg.hasWebUI = true then [] else [Action.printText text])
    ++ (if cfg.hasTranslationQueue = true then [Action.translationPut text pid] else [])
    ++ [Action.logBufferAdd text]
    ++ (if logRes.2 = true then [Action.logWriteError] else [])
    ++ (if cfg.hasWebUI = true then
          Action.sendRecognized text cfg.sourceLang pid ::
            (if cfg.hasTranslationQueue = false ∧ cfg.hasKeywordSearch = true then
              [Action.spawnKeywordTrigger text pid cfg.sourceLang]
            else [])
        else [])
  (⟨⟨text, now⟩, logRes.1, pid + 1⟩, acts)

/-- The loop body after a successful backend call: trim, apply the
emission policy, and in debug mode log when the trimmed text is
empty. -/
def recognitionBody (cfg : RecogConfig) (st : RecogState) (o : IterOracle) (raw : String) :
    RecogState × List Action :=
  let text := pyStrip raw
  if shouldEmit text st.emission o.now = true then emissionStep cfg st o.now text o.flushW
  else if cfg.debug = true ∧ text = "" then (st, [Action.logInfo "認識結果が空です。"])
  else (st, [])

/-- One iteration of `recognition_thread` with its two `try` blocks
made explicit: the inner one catches backend exceptions (log and
continue to the next chunk), the outer one catches anything else. -/
def recognitionIterationE (cfg : RecogConfig) (st : RecogState) (o : IterOracle) :
    Except String (RecogState × List Action) :=
  pyTryE
    (match backendCall o.backend with
     | Except.error e => Except.ok (st, [Action.logInfo ("音声認識エラー: " ++ e)])
     | Except.ok raw => Except.ok (recognitionBody cfg st o raw))
    (fun e => (st, [Action.logError ("エラー (認識スレッド): " ++ e)]))

/-- The state and actions an iteration actually produces; the error arm
is unreachable because the outer `try` catches everything. -/
def recognitionIteration (cfg : RecogConfig) (st : RecogState) (o : IterOracle) :
    RecogState × List Action :=
  match recognitionIterationE cfg st o with
  | Except.ok r => r
  | Except.error _ => (st, [])

/-- Running the worker loop over a list of per-iteration oracles,
collecting each iteration's actions. -/
def runTrace (cfg : RecogConfig) : RecogState → List IterOracle → RecogState × List (List Action)
  | st, [] => (st, [])
  | st, o :: os =>
    let r := recognitionIteration cfg st o
    let rest := runTrace cfg r.1 os
    (rest.1, r.2 :: rest.2)

/-- The CorrelationID attached to an action, when it carries one. -/
def actionPid : Action → Option Nat
  | Action.translationPut _ p => some p
  | Action.sendRecognized _ _ p => some p
  | Action.spawnKeywordTrigger _ p _ => some p
  | _ => none

/-- All CorrelationIDs mentioned by a list of actions. -/
def iterPids (acts : List Action) : List Nat :=
  acts.filterMap actionPid

/-! ## Verified properties of the claims -/

lemma addToLogBuffer_ok_of_lt (s : LogState) (t : String) (h : s.buffer.length < 10) :
    (addToLogBuffer s t WriteOutcome.ok).1 =
      if s.buffer.length = 9 then ⟨[], s.fileLines ++ (s.buffer ++ [t])⟩
      else ⟨s.buffer ++ [t], s.fileLines⟩ := by
  unfold addToLogBuffer flushLogBuffer
  by_cases h9 : s.buffer.length = 9
  · have hlen : (s.buffer ++ [t]).length = 10 := by simp [h9]
    simp [hlen, h9]
  · have hlen : ¬ 9 ≤ s.buffer.length := by omega
    simp [h9, hlen]

lemma recordAll_loop (texts : List String) : ∀ (s : LogState), s.buffer.length < 10 →
    (texts.foldl (fun s t => (addToLogBuffer s t WriteOutcome.ok).1) s).fileLines
        ++ (texts.foldl (fun s t => (addToLogBuffer s t WriteOutcome.ok).1) s).buffer
      = s.fileLines ++ s.buffer ++ texts
    ∧ (texts.foldl (fun s t => (addToLogBuffer s t WriteOutcome.ok).1) s).buffer.length
      = (s.buffer.length + texts.length) % 10 := by
  induction texts with
  | nil =>
    intro s h
    simp [Nat.mod_eq_of_lt h]
  | cons t ts ih =>
    intro s h
    rw [List.foldl_cons]
    rw [addToLogBuffer_ok_of_lt s t h]
    by_cases h9 : s.buffer.length = 9
    · rw [if_pos h9]
      have hrec := ih ⟨[], s.fileLines ++ (s.buffer ++ [t])⟩ (by simp)
      refine ⟨?_, ?_⟩
      · rw [hrec.1]; simp
      · rw [hrec.2]; simp only [List.length_nil, List.length_cons]
        omega
    · rw [if_neg h9]
      have hlt : (s.buffer ++ [t]).length < 10 := by
        simp only [List.length_append, List.length_cons, List.length_nil]
        omega
      have hrec := ih ⟨s.buffer ++ [t], s.fileLines⟩ hlt
      refine ⟨?_, ?_⟩
      · rw [hrec.1]; simp
      · rw [hrec.2]; simp only [List.length_append, List.length_cons, List.length_nil]
        omega

/-- Claim C4: a flush occurs exactly when the 10th item is appended
since the last flush (appending onto a buffer of length 9 empties it
into the file, any shorter buffer just grows); consequently, with
succeeding flushes, after any sequence of `record` operations the
buffer holds `n % 10` items (always fewer than 10), the file plus the
buffer hold exactly the recorded texts in order, and `close()` flushes
out any non-empty partial buffer so that every recorded text is in the
file. -/
theorem log_buffer_flush_policy :
    (∀ (s : LogState) (t : String), s.buffer.length < 10 →
      (addToLogBuffer s t WriteOutcome.ok).1 =
        if s.buffer.length = 9 then ⟨[], s.fileLines ++ (s.buffer ++ [t])⟩
        else ⟨s.buffer ++ [t], s.fileLines⟩)
    ∧ (∀ texts : List String,
        (recordAll texts).buffer.length = texts.length % 10
        ∧ (recordAll texts).buffer.length < 10
        ∧ (recordAll texts).fileLines ++ (recordAll texts).buffer = texts
        ∧ (closeLog (recordAll texts) WriteOutcome.ok).1 = ⟨[], texts⟩) := by
  refine ⟨addToLogBuffer_ok_of_lt, ?_⟩
  intro texts
  have h := recordAll_loop texts ⟨[], []⟩ (by simp)
  simp only [List.length_nil, Nat.zero_add, List.nil_append] at h
  have hlen : (recordAll texts).buffer.length = texts.length % 10 := h.2
  have hcat : (recordAll texts).fileLines ++ (recordAll texts).buffer = texts := h.1
  refine ⟨hlen, ?_, hcat, ?_⟩
  · rw [hlen]; exact Nat.mod_lt _ (by omega)
  · unfold closeLog flushLogBuffer
    by_cases hb : (recordAll texts).buffer = []
    · rw [if_pos hb]
      have hfile : (recordAll texts).fileLines = texts := by
        rw [hb, List.append_nil] at hcat
        exact hcat
      show recordAll texts = ⟨[], texts⟩
      have heta : LogState.mk (recordAll texts).buffer (recordAll texts).fileLines
          = ⟨[], texts⟩ := by
        rw [hb, hfile]
      exact heta
    · rw [if_neg hb]
      simp [hcat]

/-- Witness for C4 at concrete inputs: appending a 10th item flushes the
whole batch, and 13 recorded texts leave 3 in the buffer with 10 in the
file, all of them written out by close. -/
theorem log_buffer_flush_policy_witness :
    (addToLogBuffer ⟨["a", "b", "c", "d", "e", "f", "g", "h", "i"], []⟩ "j" WriteOutcome.ok).1
      = ⟨[], ["a", "b", "c", "d", "e", "f", "g", "h", "i", "j"]⟩
    ∧ (recordAll ["x", "y", "z"]).buffer.length = 3
    ∧ (closeLog (recordAll ["x", "y", "z"]) WriteOutcome.ok).1 = ⟨[], ["x", "y", "z"]⟩ := by
  have h1 := log_buffer_flush_policy.1 ⟨["a", "b", "c", "d", "e", "f", "g", "h", "i"], []⟩ "j"
    (by decide)
  have h2 := (log_buffer_flush_policy.2 ["x", "y", "z"]).1
  have h3 := (log_buffer_flush_policy.2 ["x", "y", "z"]).2.2.2
  refine ⟨?_, ?_, h3⟩
  · simpa using h1
  · simpa using h2

/-- Counterexample to claim C2: flushing a one-element buffer that hits
an IOError logs the error but leaves the buffer untouched (the
`clear()` sits inside the `try`, after the failing write), so it is not
the case that the buffer is empty after every flush call. -/
theorem flush_failure_counterexample :
    flushLogBuffer ⟨["hello"], []⟩ (WriteOutcome.ioError 0) = (⟨["hello"], []⟩, true)
    ∧ ¬ (flushLogBuffer ⟨["hello"], []⟩ (WriteOutcome.ioError 0)).1.buffer = [] := by
  decide

/-- Claim C2 as amended: when flush hits a write failure the error is
logged and the in-memory buffer is retained unchanged (the batch stays
in memory for a later retry); the buffer is cleared exactly by a
successful flush, and flushing an empty buffer is a silent no-op. -/
theorem flush_failure_retains_buffer (s : LogState) (k : Nat) :
    ((flushLogBuffer s WriteOutcome.ok).1.buffer = []
      ∧ (flushLogBuffer s WriteOutcome.ok).2 = false)
    ∧ (¬ s.buffer = [] →
        (flushLogBuffer s (WriteOutcome.ioError k)).1.buffer = s.buffer
        ∧ (flushLogBuffer s (WriteOutcome.ioError k)).2 = true)
    ∧ (s.buffer = [] → ∀ w, flushLogBuffer s w = (s, false)) := by
  unfold flushLogBuffer
  by_cases hb : s.buffer = []
  · simp [hb]
  · simp [hb]

/-- Witness for the amended C2 at a concrete state: a failed flush of
the buffer `["hello"]` keeps it and logs; a successful flush empties
it. -/
theorem flush_failure_retains_buffer_witness :
    (flushLogBuffer ⟨["hello"], []⟩ WriteOutcome.ok).1.buffer = []
    ∧ (flushLogBuffer ⟨["hello"], []⟩ (WriteOutcome.ioError 0)).1.buffer = ["hello"]
    ∧ (flushLogBuffer ⟨["hello"], []⟩ (WriteOutcome.ioError 0)).2 = true := by
  have h := flush_failure_retains_buffer ⟨["hello"], []⟩ 0
  exact ⟨h.1.1, (h.2.1 (by decide)).1, (h.2.1 (by decide)).2⟩

lemma mem_dedupFirst_loop (l : List String) : ∀ (acc : List String) (x : String),
    x ∈ l.foldl (fun acc kw => if kw ∈ acc then acc else acc ++ [kw]) acc →
    x ∈ acc ∨ x ∈ l := by
  induction l with
  | nil =>
    intro acc x h
    exact Or.inl h
  | cons kw rest ih =>
    intro acc x h
    rw [List.foldl_cons] at h
    rcases ih _ x h with hacc | hrest
    · by_cases hk : kw ∈ acc
      · rw [if_pos hk] at hacc
        exact Or.inl hacc
      · rw [if_neg hk] at hacc
        rcases List.mem_append.mp hacc with h1 | h2
        · exact Or.inl h1
        · rw [List.mem_singleton] at h2
          exact Or.inr (h2 ▸ List.mem_cons_self _ _)
    · exact Or.inr (List.mem_cons_of_mem _ hrest)

lemma mem_dedupFirst {x : String} {l : List String} (h : x ∈ dedupFirst l) : x ∈ l := by
  rcases mem_dedupFirst_loop l [] x h with h0 | h1
  · exact absurd h0 (List.not_mem_nil x)
  · exact h1

lemma nodup_dedupFirst_loop (l : List String) : ∀ (acc : List String), acc.Nodup →
    (l.foldl (fun acc kw => if kw ∈ acc then acc else acc ++ [kw]) acc).Nodup := by
  induction l with
  | nil =>
    intro acc hacc
    exact hacc
  | cons kw rest ih =>
    intro acc hacc
    rw [List.foldl_cons]
    apply ih
    by_cases hk : kw ∈ acc
    · rw [if_pos hk]
      exact hacc
    · rw [if_neg hk]
      exact List.nodup_append.mpr
        ⟨hacc, List.nodup_singleton kw, List.disjoint_singleton.mpr hk⟩

lemma nodup_dedupFirst (l : List String) : (dedupFirst l).Nodup :=
  nodup_dedupFirst_loop l [] List.nodup_nil

lemma length_of_mem_reFindRuns {p : Char → Bool} {m : Nat} {text kw : String}
    (h : kw ∈ reFindRuns p m text) : m ≤ kw.length := by
  unfold reFindRuns at h
  rcases List.mem_map.mp h with ⟨r, hr, hmk⟩
  have h2 := of_decide_eq_true (List.mem_filter.mp hr).2
  rw [← hmk]
  exact h2

lemma isStoppedSingleKanji_eq_false {kw : String} (h : 2 ≤ kw.length) :
    isStoppedSingleKanji kw = false := by
  unfold isStoppedSingleKanji
  have h2 : 2 ≤ kw.toList.length := h
  cases htl : kw.toList with
  | nil => rfl
  | cons c cs =>
    cases hcs : cs with
    | nil =>
      rw [htl, hcs] at h2
      simp at h2
    | cons c2 rest => rfl

lemma ja_filter_stages_eq (text : String) :
    ((reFindRuns isKanjiChar 1 text).filter (fun k => !(isStoppedSingleKanji k))
        ++ reFindRuns isKatakanaChar 2 text ++ reFindRuns isAlnumAscii 3 text).filter
      (fun kw => !(stopWords.contains kw))
    = (reFindRuns isKanjiChar 1 text ++ reFindRuns isKatakanaChar 2 text
        ++ reFindRuns isAlnumAscii 3 text).filter specDropStop := by
  rw [List.filter_append, List.filter_append, List.filter_append, List.filter_append,
    List.filter_filter]
  have hkanji : (reFindRuns isKanjiChar 1 text).filter
        (fun a => (!(stopWords.contains a)) && !(isStoppedSingleKanji a))
      = (reFindRuns isKanjiChar 1 text).filter specDropStop := by
    apply List.filter_congr
    intro a _
    unfold specDropStop
    exact Bool.and_comm _ _
  have hkata : (reFindRuns isKatakanaChar 2 text).filter (fun kw => !(stopWords.contains kw))
      = (reFindRuns isKatakanaChar 2 text).filter specDropStop := by
    apply List.filter_congr
    intro a ha
    unfold specDropStop
    rw [isStoppedSingleKanji_eq_false (length_of_mem_reFindRuns ha)]
    simp
  have heng : (reFindRuns isAlnumAscii 3 text).filter (fun kw => !(stopWords.contains kw))
      = (reFindRuns isAlnumAscii 3 text).filter specDropStop := by
    apply List.filter_congr
    intro a ha
    unfold specDropStop
    rw [isStoppedSingleKanji_eq_false (le_trans (by omega) (length_of_mem_reFindRuns ha))]
    simp
  rw [hkanji, hkata, heng]

lemma extract_eq_spec (text language : String) :
    extract_keywords_simple text language = extractKeywordsSpec text language := by
  unfold extract_keywords_simple extractKeywordsSpec
  by_cases ht : text = ""
  · subst ht
    by_cases hja : isJaLocale language = true
    · simp only [if_pos rfl, hja, if_true]
      rfl
    · simp only [if_pos rfl, hja, if_false]
      rfl
  · rw [if_neg ht]
    by_cases hja : isJaLocale language = true
    · rw [if_pos hja, if_pos hja, ja_filter_stages_eq]
    · rw [if_neg hja, if_neg hja, List.filter_map]
      rfl

/-- Claim C5: keyword extraction coincides, for every input text and
locale tag, with the pipeline the specification describes (runs of at
least 1 CJK ideograph, 2 katakana, 3 alphanumerics with the two
stoplists applied for a Japanese-tagged locale; punctuation-stripped
whitespace tokens of length at least 3 otherwise; deduplicated
preserving first occurrence and truncated to 4); moreover the output
always has at most 4 keywords, no duplicates, and under a Japanese
locale never contains a generic stop word nor a stoplisted single
ideograph. -/
theorem keyword_extraction_matches_spec (text language : String) :
    extract_keywords_simple text language = extractKeywordsSpec text language
    ∧ (extract_keywords_simple text language).length ≤ 4
    ∧ (extract_keywords_simple text language).Nodup
    ∧ (isJaLocale language = true →
        ∀ kw ∈ extract_keywords_simple text language,
          stopWords.contains kw = false ∧ isStoppedSingleKanji kw = false) := by
  have heq := extract_eq_spec text language
  have hshape : extract_keywords_simple text language = []
      ∨ ∃ kws, extract_keywords_simple text language = (dedupFirst kws).take 4 := by
    unfold extract_keywords_simple
    by_cases ht : text = ""
    · rw [if_pos ht]
      exact Or.inl rfl
    · rw [if_neg ht]
      exact Or.inr ⟨_, rfl⟩
  refine ⟨heq, ?_, ?_, ?_⟩
  · rcases hshape with h0 | ⟨kws, hk⟩
    · rw [h0]
      simp
    · rw [hk]
      exact List.length_take_le 4 _
  · rcases hshape with h0 | ⟨kws, hk⟩
    · rw [h0]
      exact List.nodup_nil
    · rw [hk]
      exact List.Nodup.sublist (List.take_sublist 4 _) (nodup_dedupFirst kws)
  · intro hja kw hmem
    rw [heq] at hmem
    unfold extractKeywordsSpec at hmem
    rw [if_pos hja] at hmem
    have hmem2 := mem_dedupFirst (List.take_subset 4 _ hmem)
    have hfil := (List.mem_filter.mp hmem2).2
    unfold specDropStop at hfil
    have hsplit : isStoppedSingleKanji kw = false ∧ stopWords.contains kw = false := by
      simpa using hfil
    exact ⟨hsplit.2, hsplit.1⟩

/-- Witness for C5 at a concrete Japanese input: the stop word 今日 and
the stoplisted single ideograph 一 are dropped, katakana and remaining
kanji runs are kept, and the spec pipeline agrees. -/
theorem keyword_extraction_matches_spec_witness :
    extract_keywords_simple "今日は東京タワーに一人で行きました" "ja"
      = extractKeywordsSpec "今日は東京タワーに一人で行きました" "ja"
    ∧ (extract_keywords_simple "今日は東京タワーに一人で行きました" "ja").length ≤ 4
    ∧ (∀ kw ∈ extract_keywords_simple "今日は東京タワーに一人で行きました" "ja",
        stopWords.contains kw = false) := by
  have h := keyword_extraction_matches_spec "今日は東京タワーに一人で行きました" "ja"
  refine ⟨h.1, h.2.1, ?_⟩
  intro kw hmem
  exact (h.2.2.2 (by decide) kw hmem).1

/-- Claim C8: the search provider is contacted if and only if the
keyword list is non-empty, with the keywords joined into one query
string and at most 3 article and 3 image results requested; a search on
an empty keyword list returns empty lists without contacting the
provider, and the trigger contacts the provider exactly when the
extracted keyword set is non-empty. -/
theorem search_provider_contact (keywords : List String) (run : DdgsRun)
    (txt : String) (pid : Nat) (lang : String) :
    (KeywordSearch_search keywords run).providerCall
      = (if keywords = [] then none
         else some ⟨String.intercalate " " keywords, 3, 3⟩)
    ∧ (keywords = [] →
        KeywordSearch_search keywords run = ⟨[], [], none, false⟩)
    ∧ (trigger_keyword_search txt pid lang run).searchCall
      = (if extract_keywords_simple txt lang = [] then none
         else some ⟨String.intercalate " " (extract_keywords_simple txt lang), 3, 3⟩) := by
  refine ⟨?_, ?_, ?_⟩
  · unfold KeywordSearch_search KeywordSearch_searchE pyTryE searchTryBody
    by_cases hk : keywords = []
    · simp [hk]
    · cases run <;> simp [hk, Except.map]
  · intro hk
    unfold KeywordSearch_search KeywordSearch_searchE
    simp [hk]
  · unfold trigger_keyword_search trigger_keyword_searchE KeywordSearch_searchE pyTryE
      searchTryBody
    by_cases hk : extract_keywords_simple txt lang = []
    · simp [hk]
    · cases run <;> simp [hk, Except.map]

/-- Witness for C8 at concrete inputs: a successful search on two
keywords contacts the provider once with the joined query and caps 3/3,
the empty keyword list returns empty results with no contact, and the
trigger on the text hello world contacts the provider. -/
theorem search_provider_contact_witness :
    (KeywordSearch_search ["hello", "world"] (DdgsRun.ok [] [])).providerCall
      = some ⟨"hello world", 3, 3⟩
    ∧ KeywordSearch_search [] (DdgsRun.ok [] []) = ⟨[], [], none, false⟩
    ∧ (trigger_keyword_search "hello world" 7 "en" (DdgsRun.ok [] [])).searchCall
      = some ⟨"hello world", 3, 3⟩ := by
  have h1 := search_provider_contact ["hello", "world"] (DdgsRun.ok [] []) "hello world" 7 "en"
  have h2 := search_provider_contact [] (DdgsRun.ok [] []) "hello world" 7 "en"
  refine ⟨?_, h2.2.1 rfl, ?_⟩
  · rw [h1.1]
    decide
  · rw [h1.2.2]
    decide

/-- Claim C10: on a provider failure partway through, the search
returns normally with the results collected before the failure (all
empty when the text listing raises, the mapped text results when the
image listing raises), and the trigger still publishes a keywords
envelope carrying those partial lists under the same CorrelationID. -/
theorem search_failure_partial_results (txt : String) (pid : Nat) (lang : String)
    (h : ¬ extract_keywords_simple txt lang = []) :
    (∀ m, KeywordSearch_searchE (extract_keywords_simple txt lang) (DdgsRun.failInText m)
        = Except.ok ⟨[], [],
            some ⟨String.intercalate " " (extract_keywords_simple txt lang), 3, 3⟩, true⟩)
    ∧ (∀ ts m, KeywordSearch_searchE (extract_keywords_simple txt lang)
          (DdgsRun.failInImages ts m)
        = Except.ok ⟨ts.map mkArticle, [],
            some ⟨String.intercalate " " (extract_keywords_simple txt lang), 3, 3⟩, true⟩)
    ∧ (∀ m, trigger_keyword_search txt pid lang (DdgsRun.failInText m)
        = ⟨some ⟨String.intercalate " " (extract_keywords_simple txt lang), 3, 3⟩,
           some (extract_keywords_simple txt lang, [], [], pid), false⟩)
    ∧ (∀ ts m, trigger_keyword_search txt pid lang (DdgsRun.failInImages ts m)
        = ⟨some ⟨String.intercalate " " (extract_keywords_simple txt lang), 3, 3⟩,
           some (extract_keywords_simple txt lang, ts.map mkArticle, [], pid), false⟩) := by
  refine ⟨?_, ?_, ?_, ?_⟩
  · intro m
    unfold KeywordSearch_searchE pyTryE searchTryBody
    simp [h, Except.map]
  · intro ts m
    unfold KeywordSearch_searchE pyTryE searchTryBody
    simp [h, Except.map]
  · intro m
    unfold trigger_keyword_search trigger_keyword_searchE KeywordSearch_searchE pyTryE
      searchTryBody
    simp [h, Except.map]
  · intro ts m
    unfold trigger_keyword_search trigger_keyword_searchE KeywordSearch_searchE pyTryE
      searchTryBody
    simp [h, Except.map]

/-- Witness for C10 at concrete inputs: with keywords extracted from
hello world and a provider that fails during the image listing after
one text result, the trigger still publishes the one mapped article and
no images. -/
theorem search_failure_partial_results_witness :
    trigger_keyword_search "hello world" 7 "en"
        (DdgsRun.failInImages [⟨"t", "h", "b"⟩] "boom")
      = ⟨some ⟨"hello world", 3, 3⟩,
         some (["hello", "world"], [⟨"t", "h", "b"⟩], [], 7), false⟩ := by
  have h := search_failure_partial_results "hello world" 7 "en" (by decide)
  have h4 := h.2.2.2 [⟨"t", "h", "b"⟩] "boom"
  rw [h4]
  decide

/-- Claim C9: with the bridge constructed disabled, every public send
operation and the broadcast itself submit no work to the worker pool
(hence make no HTTP call), for any event type and any arguments. -/
theorem disabled_bridge_is_noop (b : WebUIBridge) (h : b.enabled = false)
    (text language : String) (pair_id : Option String) (nowIso : String)
    (source_text : Option String) (kws : List String) (arts : List Article)
    (imgs : List Image) (st msg emsg : String) (m : UiMessage) :
    send_recognized_text b text language pair_id nowIso = []
    ∧ send_translated_text b text source_text pair_id nowIso = []
    ∧ send_keywords b kws arts imgs pair_id nowIso = []
    ∧ send_status b st msg nowIso = []
    ∧ send_error b emsg nowIso = []
    ∧ WebUIBridge_broadcast b m = [] := by
  unfold send_recognized_text send_translated_text send_keywords send_status send_error
    WebUIBridge_broadcast
  simp [h]

/-- Witness for C9 at a concrete disabled bridge and concrete
arguments: every send is empty. -/
theorem disabled_bridge_is_noop_witness :
    send_recognized_text ⟨"http://localhost:8000", false⟩ "hi" "en" none "t0" = []
    ∧ send_status ⟨"http://localhost:8000", false⟩ "running" "ok" "t0" = []
    ∧ WebUIBridge_broadcast ⟨"http://localhost:8000", false⟩ (UiMessage.errorMsg "e" "t0") = [] := by
  have h := disabled_bridge_is_noop ⟨"http://localhost:8000", false⟩ rfl "hi" "en" none "t0"
    none [] [] [] "running" "ok" "e" (UiMessage.errorMsg "e" "t0")
  exact ⟨h.1, h.2.2.2.1, h.2.2.2.2.2⟩

lemma shouldEmit_iff (text : String) (es : EmissionState) (now : ℚ) :
    shouldEmit text es now = true
      ↔ (¬ text = "" ∧ (¬ text = es.last_text ∨ (3 : ℚ)/2 < now - es.last_text_time)) := by
  unfold shouldEmit
  simp

lemma recognitionIteration_ok (cfg : RecogConfig) (st : RecogState) (raw : String)
    (now : ℚ) (fw : WriteOutcome) :
    recognitionIteration cfg st ⟨BackendResult.ok raw, now, fw⟩
      = recognitionBody cfg st ⟨BackendResult.ok raw, now, fw⟩ raw := rfl

lemma recognitionBody_emit (cfg : RecogConfig) (st : RecogState) (o : IterOracle) (raw : String)
    (h : shouldEmit (pyStrip raw) st.emission o.now = true) :
    recognitionBody cfg st o raw = emissionStep cfg st o.now (pyStrip raw) o.flushW := by
  unfold recognitionBody
  simp [h]

lemma recognitionBody_noemit (cfg : RecogConfig) (st : RecogState) (o : IterOracle) (raw : String)
    (h : shouldEmit (pyStrip raw) st.emission o.now = false) :
    recognitionBody cfg st o raw
      = (if cfg.debug = true ∧ pyStrip raw = ""
         then (st, [Action.logInfo "認識結果が空です。"]) else (st, [])) := by
  unfold recognitionBody
  simp [h]

lemma emissionStep_emission (cfg : RecogConfig) (st : RecogState) (now : ℚ) (text : String)
    (fw : WriteOutcome) : (emissionStep cfg st now text fw).1.emission = ⟨text, now⟩ := rfl

lemma mem_logBufferAdd_emissionStep (cfg : RecogConfig) (st : RecogState) (now : ℚ)
    (text : String) (fw : WriteOutcome) :
    Action.logBufferAdd text ∈ (emissionStep cfg st now text fw).2 := by
  unfold emissionStep
  simp

/-- Claim C1: for every backend text (trimmed inside the loop) the
iteration emits it exactly when it is non-empty and either differs from
the previous text or arrived more than 1.5 seconds after the previous
emission; the emission state becomes the emitted text and time exactly
on emission and is otherwise unchanged; right after an emission the
same text is suppressed within 1.5 seconds and re-emitted after more
than 1.5 seconds; and an empty or whitespace-only text leaves the state
untouched and produces no emission, logging or fan-out action (only a
debug-mode info line). -/
theorem emission_policy (cfg : RecogConfig) (st : RecogState) (now : ℚ) (fw : WriteOutcome)
    (raw : String) :
    (Action.logBufferAdd (pyStrip raw)
        ∈ (recognitionIteration cfg st ⟨BackendResult.ok raw, now, fw⟩).2
      ↔ (¬ pyStrip raw = ""
          ∧ (¬ pyStrip raw = st.emission.last_text
              ∨ (3 : ℚ)/2 < now - st.emission.last_text_time)))
    ∧ (recognitionIteration cfg st ⟨BackendResult.ok raw, now, fw⟩).1.emission
      = (if shouldEmit (pyStrip raw) st.emission now = true
         then ⟨pyStrip raw, now⟩ else st.emission)
    ∧ (shouldEmit (pyStrip raw) st.emission now = false →
        (recognitionIteration cfg st ⟨BackendResult.ok raw, now, fw⟩).1 = st)
    ∧ (shouldEmit (pyStrip raw) st.emission now = true →
        ∀ now2 : ℚ,
          (shouldEmit (pyStrip raw)
              (recognitionIteration cfg st ⟨BackendResult.ok raw, now, fw⟩).1.emission now2
              = true
            ↔ (3 : ℚ)/2 < now2 - now))
    ∧ (pyStrip raw = "" →
        (recognitionIteration cfg st ⟨BackendResult.ok raw, now, fw⟩).1 = st
        ∧ (recognitionIteration cfg st ⟨BackendResult.ok raw, now, fw⟩).2
          = (if cfg.debug = true then [Action.logInfo "認識結果が空です。"] else [])) := by
  rw [recognitionIteration_ok]
  by_cases hse : shouldEmit (pyStrip raw) st.emission now = true
  · have hbody := recognitionBody_emit cfg st ⟨BackendResult.ok raw, now, fw⟩ raw hse
    rw [hbody]
    have hprops := (shouldEmit_iff (pyStrip raw) st.emission now).mp hse
    refine ⟨?_, ?_, ?_, ?_, ?_⟩
    · constructor
      · intro _
        exact hprops
      · intro _
        exact mem_logBufferAdd_emissionStep cfg st now (pyStrip raw) fw
    · rw [if_pos hse]
      exact emissionStep_emission cfg st now (pyStrip raw) fw
    · intro hcontra
      rw [hse] at hcontra
      exact absurd hcontra (by simp)
    · intro _ now2
      rw [emissionStep_emission cfg st now (pyStrip raw) fw]
      unfold shouldEmit
      simp [hprops.1]
    · intro hempty
      exact absurd hempty hprops.1
  · have hse2 : shouldEmit (pyStrip raw) st.emission now = false := by
      simpa using hse
    have hbody := recognitionBody_noemit cfg st ⟨BackendResult.ok raw, now, fw⟩ raw hse2
    rw [hbody]
    have hnprops := (shouldEmit_iff (pyStrip raw) st.emission now).not.mp hse
    refine ⟨?_, ?_, ?_, ?_, ?_⟩
    · constructor
      · intro hmem
        exfalso
        by_cases hd : cfg.debug = true ∧ pyStrip raw = ""
        · rw [if_pos hd] at hmem
          simp at hmem
        · rw [if_neg hd] at hmem
          simp at hmem
      · intro hrhs
        exact absurd hrhs hnprops
    · rw [if_neg hse]
      by_cases hd : cfg.debug = true ∧ pyStrip raw = ""
      · rw [if_pos hd]
      · rw [if_neg hd]
    · intro _
      by_cases hd : cfg.debug = true ∧ pyStrip raw = ""
      · rw [if_pos hd]
      · rw [if_neg hd]
    · intro hcontra
      exact absurd hcontra hse
    · intro hempty
      by_cases hd : cfg.debug = true
      · rw [if_pos ⟨hd, hempty⟩, if_pos hd]
        exact ⟨rfl, rfl⟩
      · have hnd : ¬ (cfg.debug = true ∧ pyStrip raw = "") := fun hc => hd hc.1
        rw [if_neg hnd, if_neg hd]
        exact ⟨rfl, rfl⟩

/-- Witness for C1 at concrete inputs: the raw backend text
(with surrounding spaces) trims to hello, which differs from the empty
previous text, so the iteration appends it to the log buffer. -/
theorem emission_policy_witness :
    Action.logBufferAdd (pyStrip " hello ")
      ∈ (recognitionIteration ⟨true, true, true, false, "en"⟩ ⟨⟨"", 0⟩, ⟨[], []⟩, 0⟩
          ⟨BackendResult.ok " hello ", 2, WriteOutcome.ok⟩).2 := by
  have h := emission_policy ⟨true, true, true, false, "en"⟩ ⟨⟨"", 0⟩, ⟨[], []⟩, 0⟩ 2
    WriteOutcome.ok " hello "
  exact h.1.mpr ⟨by decide, Or.inl (by decide)⟩

/-- Counterexample to claim C3: in a configuration with no translation
sink, a present keyword subsystem, but no dashboard sink, an accepted
emission (hello enters the log buffer) spawns no keyword trigger at
all — the spawn sits inside the dashboard branch of the source, so it
does not happen regardless of the dashboard, contrary to the claim. -/
theorem keyword_trigger_needs_webui_counterexample :
    (recognitionIteration ⟨false, false, true, false, "en"⟩ ⟨⟨"", 0⟩, ⟨[], []⟩, 0⟩
        ⟨BackendResult.ok "hello", 1, WriteOutcome.ok⟩).2
      = [Action.printText "hello", Action.logBufferAdd "hello"]
    ∧ Action.logBufferAdd "hello"
        ∈ (recognitionIteration ⟨false, false, true, false, "en"⟩ ⟨⟨"", 0⟩, ⟨[], []⟩, 0⟩
            ⟨BackendResult.ok "hello", 1, WriteOutcome.ok⟩).2
    ∧ ¬ Action.spawnKeywordTrigger "hello" 0 "en"
        ∈ (recognitionIteration ⟨false, false, true, false, "en"⟩ ⟨⟨"", 0⟩, ⟨[], []⟩, 0⟩
            ⟨BackendResult.ok "hello", 1, WriteOutcome.ok⟩).2 := by
  refine ⟨rfl, ?_, ?_⟩
  · rw [show (recognitionIteration ⟨false, false, true, false, "en"⟩ ⟨⟨"", 0⟩, ⟨[], []⟩, 0⟩
        ⟨BackendResult.ok "hello", 1, WriteOutcome.ok⟩).2
      = [Action.printText "hello", Action.logBufferAdd "hello"] from rfl]
    simp
  · rw [show (recognitionIteration ⟨false, false, true, false, "en"⟩ ⟨⟨"", 0⟩, ⟨[], []⟩, 0⟩
        ⟨BackendResult.ok "hello", 1, WriteOutcome.ok⟩).2
      = [Action.printText "hello", Action.logBufferAdd "hello"] from rfl]
    simp

/-- Claim C3 as amended: on an emission the worker loop spawns the
keyword trigger for the emitted text and its fresh CorrelationID if and
only if a dashboard sink is configured, no translation sink is
configured, and the keyword subsystem is present (the spawn lives
inside the dashboard branch, so a dashboard sink is required in
addition to what the claim stated). -/
theorem keyword_trigger_spawn_condition (cfg : RecogConfig) (st : RecogState) (now : ℚ)
    (fw : WriteOutcome) (raw : String) :
    Action.spawnKeywordTrigger (pyStrip raw) st.nextPairId cfg.sourceLang
        ∈ (recognitionIteration cfg st ⟨BackendResult.ok raw, now, fw⟩).2
      ↔ (shouldEmit (pyStrip raw) st.emission now = true
         ∧ cfg.hasWebUI = true ∧ cfg.hasTranslationQueue = false
         ∧ cfg.hasKeywordSearch = true) := by
  rw [recognitionIteration_ok]
  by_cases hse : shouldEmit (pyStrip raw) st.emission now = true
  · rw [recognitionBody_emit cfg st ⟨BackendResult.ok raw, now, fw⟩ raw hse]
    unfold emissionStep
    by_cases hw : cfg.hasWebUI = true <;>
      by_cases htq : cfg.hasTranslationQueue = true <;>
        by_cases hk : cfg.hasKeywordSearch = true <;>
          simp [hse, hw, htq, hk]
  · have hse2 : shouldEmit (pyStrip raw) st.emission now = false := by
      simpa using hse
    rw [recognitionBody_noemit cfg st ⟨BackendResult.ok raw, now, fw⟩ raw hse2]
    constructor
    · intro hmem
      exfalso
      by_cases hd : cfg.debug = true ∧ pyStrip raw = ""
      · rw [if_pos hd] at hmem
        simp at hmem
      · rw [if_neg hd] at hmem
        simp at hmem
    · intro hrhs
      exact absurd hrhs.1 hse

/-- Witness for the amended C3 at concrete inputs: with a dashboard
sink, no translation sink and a keyword subsystem, the emission of
hello spawns the keyword trigger with the same text and the fresh
CorrelationID 0. -/
theorem keyword_trigger_spawn_condition_witness :
    Action.spawnKeywordTrigger (pyStrip "hello") 0 "en"
      ∈ (recognitionIteration ⟨false, true, true, false, "en"⟩ ⟨⟨"", 0⟩, ⟨[], []⟩, 0⟩
          ⟨BackendResult.ok "hello", 1, WriteOutcome.ok⟩).2 := by
  have h := keyword_trigger_spawn_condition ⟨false, true, true, false, "en"⟩
    ⟨⟨"", 0⟩, ⟨[], []⟩, 0⟩ 1 WriteOutcome.ok "hello"
  exact h.mpr ⟨by decide, rfl, rfl, rfl⟩

lemma pid_mem_iteration (cfg : RecogConfig) (st : RecogState) (o : IterOracle) :
    ∀ p ∈ iterPids (recognitionIteration cfg st o).2,
      p = st.nextPairId
      ∧ st.nextPairId + 1 ≤ (recognitionIteration cfg st o).1.nextPairId := by
  rcases o with ⟨br, now, fw⟩
  cases br with
  | exn m =>
    intro p hp
    simp [recognitionIteration, recognitionIterationE, pyTryE, backendCall,
      iterPids, actionPid] at hp
  | ok raw =>
    rw [recognitionIteration_ok]
    by_cases hse : shouldEmit (pyStrip raw) st.emission now = true
    · rw [recognitionBody_emit cfg st ⟨BackendResult.ok raw, now, fw⟩ raw hse]
      intro p hp
      refine ⟨?_, le_refl _⟩
      unfold emissionStep at hp
      by_cases hw : cfg.hasWebUI = true <;>
        by_cases htq : cfg.hasTranslationQueue = true <;>
          by_cases hk : cfg.hasKeywordSearch = true <;>
            by_cases hfl : (addToLogBuffer st.log (pyStrip raw) fw).2 = true <;>
              simp [iterPids, actionPid, hw, htq, hk, hfl] at hp <;>
                omega
    · have hse2 : shouldEmit (pyStrip raw) st.emission now = false := by
        simpa using hse
      rw [recognitionBody_noemit cfg st ⟨BackendResult.ok raw, now, fw⟩ raw hse2]
      intro p hp
      by_cases hd : cfg.debug = true ∧ pyStrip raw = ""
      · rw [if_pos hd] at hp
        simp [iterPids, actionPid] at hp
      · rw [if_neg hd] at hp
        simp [iterPids, actionPid] at hp

lemma nextPairId_le_iteration (cfg : RecogConfig) (st : RecogState) (o : IterOracle) :
    st.nextPairId ≤ (recognitionIteration cfg st o).1.nextPairId := by
  rcases o with ⟨br, now, fw⟩
  cases br with
  | exn m => exact le_refl _
  | ok raw =>
    rw [recognitionIteration_ok]
    by_cases hse : shouldEmit (pyStrip raw) st.emission now = true
    · rw [recognitionBody_emit cfg st ⟨BackendResult.ok raw, now, fw⟩ raw hse]
      exact Nat.le_succ _
    · have hse2 : shouldEmit (pyStrip raw) st.emission now = false := by
        simpa using hse
      rw [recognitionBody_noemit cfg st ⟨BackendResult.ok raw, now, fw⟩ raw hse2]
      by_cases hd : cfg.debug = true ∧ pyStrip raw = ""
      · rw [if_pos hd]
      · rw [if_neg hd]

lemma runTrace_cons (cfg : RecogConfig) (st : RecogState) (o : IterOracle)
    (os : List IterOracle) :
    runTrace cfg st (o :: os)
      = ((runTrace cfg (recognitionIteration cfg st o).1 os).1,
         (recognitionIteration cfg st o).2
           :: (runTrace cfg (recognitionIteration cfg st o).1 os).2) := rfl

lemma runTrace_pids_ge (cfg : RecogConfig) (os : List IterOracle) : ∀ (st : RecogState),
    ∀ l ∈ (runTrace cfg st os).2, ∀ p ∈ iterPids l, st.nextPairId ≤ p := by
  induction os with
  | nil =>
    intro st l hl
    simp [runTrace] at hl
  | cons o os ih =>
    intro st l hl p hp
    rw [runTrace_cons] at hl
    rcases List.mem_cons.mp hl with hl1 | hl2
    · subst hl1
      exact le_of_eq (pid_mem_iteration cfg st o p hp).1.symm
    · exact le_trans (nextPairId_le_iteration cfg st o) (ih _ l hl2 p hp)

/-- Claim C7: along any run of the worker loop, every action of one
iteration carries the same CorrelationID (the translation message, the
dashboard recognized envelope and the keyword trigger of one emission
share it), and the IDs of distinct iterations are strictly increasing,
hence every accepted recognition event gets an ID distinct from all
previously issued ones and never reused. -/
theorem correlation_id_uniqueness (cfg : RecogConfig) (st0 : RecogState)
    (os : List IterOracle) :
    (∀ l ∈ (runTrace cfg st0 os).2, ∀ p ∈ iterPids l, ∀ q ∈ iterPids l, p = q)
    ∧ (runTrace cfg st0 os).2.Pairwise
        (fun l1 l2 => ∀ p ∈ iterPids l1, ∀ q ∈ iterPids l2, p < q) := by
  induction os generalizing st0 with
  | nil => simp [runTrace]
  | cons o os ih =>
    rw [runTrace_cons]
    constructor
    · intro l hl p hp q hq
      rcases List.mem_cons.mp hl with hl1 | hl2
      · subst hl1
        rw [(pid_mem_iteration cfg st0 o p hp).1,
          (pid_mem_iteration cfg st0 o q hq).1]
      · exact (ih (recognitionIteration cfg st0 o).1).1 l hl2 p hp q hq
    · rw [List.pairwise_cons]
      refine ⟨?_, (ih (recognitionIteration cfg st0 o).1).2⟩
      intro l2 hl2 p hp q hq
      have h1 := pid_mem_iteration cfg st0 o p hp
      have h2 := runTrace_pids_ge cfg os (recognitionIteration cfg st0 o).1 l2 hl2 q hq
      omega

/-- Witness for C7 at a concrete two-iteration run: the strict
cross-iteration ordering of CorrelationIDs holds for the trace of two
accepted texts. -/
theorem correlation_id_uniqueness_witness :
    (runTrace ⟨true, true, true, false, "en"⟩ ⟨⟨"", 0⟩, ⟨[], []⟩, 0⟩
        [⟨BackendResult.ok "a", 1, WriteOutcome.ok⟩,
         ⟨BackendResult.ok "b", 2, WriteOutcome.ok⟩]).2.Pairwise
      (fun l1 l2 => ∀ p ∈ iterPids l1, ∀ q ∈ iterPids l2, p < q) :=
  (correlation_id_uniqueness ⟨true, true, true, false, "en"⟩ ⟨⟨"", 0⟩, ⟨[], []⟩, 0⟩
    [⟨BackendResult.ok "a", 1, WriteOutcome.ok⟩,
     ⟨BackendResult.ok "b", 2, WriteOutcome.ok⟩]).2

/-- Claim C6: no exception of a backend transcription call, a
keyword-search provider call, or a dashboard broadcast send propagates
out of its originating task: every iteration of the worker loop, every
search call, every keyword-trigger task and every pool post returns
normally for every oracle; a backend exception in particular is
converted to a log entry with the chunk dropped and the state left
unchanged so the loop continues, and a broadcast exception is converted
to an error log entry. -/
theorem no_exception_propagates (cfg : RecogConfig) (st : RecogState) (o : IterOracle)
    (m : String) (now : ℚ) (fw : WriteOutcome) (kws : List String) (run : DdgsRun)
    (txt : String) (pid : Nat) (lang : String) (po : PostOutcome) :
    (recognitionIterationE cfg st o).isOk = true
    ∧ recognitionIterationE cfg st ⟨BackendResult.exn m, now, fw⟩
      = Except.ok (st, [Action.logInfo ("音声認識エラー: " ++ m)])
    ∧ (KeywordSearch_searchE kws run).isOk = true
    ∧ (trigger_keyword_searchE txt pid lang run).isOk = true
    ∧ (doPostE po).isOk = true
    ∧ doPostE (PostOutcome.exn m)
      = Except.ok [BridgeLog.err ("Web UI broadcast error: " ++ m)] := by
  refine ⟨?_, rfl, ?_, ?_, ?_, rfl⟩
  · rcases o with ⟨br, now2, fw2⟩
    cases br <;> simp [recognitionIterationE, pyTryE, backendCall, Except.isOk, Except.toBool]
  · by_cases hk : kws = [] <;>
      cases run <;>
        simp [KeywordSearch_searchE, pyTryE, searchTryBody, Except.map, Except.isOk,
          Except.toBool, hk]
  · by_cases hk : extract_keywords_simple txt lang = [] <;>
      cases run <;>
        simp [trigger_keyword_searchE, KeywordSearch_searchE, pyTryE, searchTryBody,
          Except.map, Except.isOk, Except.toBool, hk]
  · cases po <;> simp [doPostE, pyTryE, httpPost, Except.map, Except.isOk, Except.toBool]

end RTTD
